import Mathlib

/-!
Verification of the Nagstamon backend adapters (Checkmk Multisite and
Alertmanager) against their natural-language specification.

The Python sources `Nagstamon/Servers/Alertmanager/__init__.py` and
`Nagstamon/Servers/Multisite.py` are shallowly embedded below: Python dicts
become association lists, Python strings become Lean `String`s (or `List Char`
where character-level reasoning is needed), raised exceptions become
`Except.error`, and wall-clock time is passed as an explicit parameter.
Helper classes that live outside the two adapter files (`Result` from
`Nagstamon/Objects.py`, the error conversion in `Servers/Generic.py`) are
modelled from the specification; their doc comments say so explicitly.
-/

set_option autoImplicit false

deriving instance DecidableEq for Except

namespace Nagstamon

/-- Two-digit zero padding, the embedding of Python's `"%02d" % n`
for a non-negative `n`. -/
def pad02 (n : Nat) : String :=
  if n < 10 then "0" ++ toString n else toString n

/-- Embedding of Python's `str.split(sep)` for a one-character separator,
on strings represented as `List Char`.  Like Python's `split`, it keeps
empty pieces: `splitOnChar '/' "a/" = ["a", ""]`. -/
def splitOnChar (c : Char) : List Char → List (List Char)
  | [] => [[]]
  | x :: xs =>
    if x = c then [] :: splitOnChar c xs
    else
      match splitOnChar c xs with
      | [] => [[x]]
      | y :: ys => (x :: y) :: ys

/-- `l[0]` of a split result (a split result is never empty). -/
def headLine : List (List Char) → List Char
  | [] => []
  | l :: _ => l

/-- `l[1:]` of a split result. -/
def tailLines : List (List Char) → List (List Char)
  | [] => []
  | _ :: ls => ls

/-- Embedding of Python's `'\n'.join(lines)`. -/
def joinNL : List (List Char) → List Char
  | [] => []
  | [l] => l
  | l :: ls => l ++ '\n' :: joinNL ls

/-- Embedding of Python's `s.startswith(p)` for a `List Char` string. -/
def pyStartsWith (s : List Char) (p : String) : Bool :=
  p.toList.isPrefixOf s

/-- Embedding of Python's `str.split(sep)` on Lean strings, for a
one-character separator (both adapters only ever split on `','`, `'/'` and
`'\n'`). -/
def pySplit (s : String) (sep : Char) : List String :=
  (splitOnChar sep s.toList).map String.mk

/-- Embedding of Python's `str.upper()` (the embedded strings are ASCII). -/
def pyUpper (s : String) : String :=
  String.mk (s.toList.map Char.toUpper)

/-- Whether a character list starts with a decimal digit. -/
def headIsDigit : List Char → Bool
  | [] => false
  | d :: _ => d.isDigit

/-- Embedding of `re.sub(':[0-9]+', '', hostname)`
(`Alertmanager/__init__.py` line 167): every occurrence of a colon followed
by one or more decimal digits is deleted, anywhere in the string.  The
boolean argument is true while the scanner is inside the digit run of a
match. -/
def stripPortAux : Bool → List Char → List Char
  | _, [] => []
  | inDigits, c :: rest =>
    if inDigits ∧ c.isDigit then stripPortAux true rest
    else if c = ':' ∧ headIsDigit rest then stripPortAux true rest
    else c :: stripPortAux false rest

/-- `re.sub(':[0-9]+', '', s)` on Lean strings. -/
def stripPort (s : String) : String :=
  String.mk (stripPortAux false s.toList)

/-- Python dict update `d[k] = v` on an association list: the first binding
of `k` is replaced in place, a missing key is appended at the end
(insertion order, as in a Python dict). -/
def setAssoc {α : Type} : List (String × α) → String → α → List (String × α)
  | [], k, v => [(k, v)]
  | (k0, v0) :: rest, k, v =>
    if k0 = k then (k, v) :: rest
    else (k0, v0) :: setAssoc rest k v

/-! ## Alertmanager adapter (`Nagstamon/Servers/Alertmanager/__init__.py`) -/

/-- The label map of an alert (a Python dict of strings). -/
abbrev Labels := List (String × String)

/-- The per-server detection configuration used by `_process_alert`
(instance attributes of `AlertmanagerServer`). -/
structure AMConfig where
  name : String
  map_to_hostname : String
  map_to_servicename : String
  map_to_status_information : String
deriving DecidableEq

/-- One alert object of the `/api/v2/alerts` JSON answer.  `none` in an
`Option` field models an absent JSON key.  The `status` sub-object is kept
as a dict so that a `status` without a `state` key is representable.
Timestamps (`startsAt`, `updatedAt`) are modelled as seconds since the
epoch; ISO-8601 parsing is outside the embedded fragment. -/
structure Alert where
  generatorURL : Option String
  fingerprint : Option String
  labels : Labels
  annotations : Labels
  status : Option Labels
  startsAt : Option Int
  updatedAt : Option Int
deriving DecidableEq

/-- The `result` dict built by `_process_alert` (lines 193-205), which is
copied field for field onto the `AlertmanagerService` in `_get_status`
(lines 256-271). -/
structure AlertData where
  host : String
  name : String
  server : String
  status : String
  labels : Labels
  last_check : String
  attempt : String
  scheduled_downtime : Bool
  acknowledged : Bool
  duration : String
  generatorURL : Option String
  fingerprint : Option String
  status_information : String
deriving DecidableEq

/-- Loop body of `_detect_from_labels`: scan the configured keys in order;
the first key *present* in the labels dict wins (its value is returned even
when that value is empty), the default is returned when no key is present. -/
def detectGo (labels : Labels) (default_value : String) : List String → String
  | [] => default_value
  | k :: ks =>
    match labels.lookup k with
    | some v => v
    | none => detectGo labels default_value ks

/-- Embedding of `AlertmanagerServer._detect_from_labels` (lines 136-143);
the delimiter is one character, as in every use of the source. -/
def detect_from_labels (labels : Labels) (config_label_list : String)
    (default_value : String := "") (list_delimiter : Char := ',') : String :=
  detectGo labels default_value (pySplit config_label_list list_delimiter)

/-- Host resolution of `_process_alert` lines 166-167: label lookup through
the priority list, then `re.sub(':[0-9]+', '', hostname)`. -/
def resolveHost (labels : Labels) (map_to_hostname : String) : String :=
  stripPort (detect_from_labels labels map_to_hostname "unknown")

/-- Embedding of `AlertmanagerServer._get_duration` (lines 100-117) for an
elapsed time of `elapsed` seconds.  `days` and `secs` reproduce Python's
`timedelta` normalisation (`days` rounds towards minus infinity, `seconds`
is the non-negative remainder below 86400). -/
def getDuration (elapsed : Int) : String :=
  let days : Int := Int.fdiv elapsed 86400
  let secs : Nat := (Int.emod elapsed 86400).toNat
  let hour : Nat := secs / 3600
  let minute : Nat := secs % 3600 / 60
  let second : Nat := secs % 60
  if days > 0 then
    toString days ++ "d " ++ toString hour ++ "h " ++ pad02 minute ++ "m " ++ pad02 second ++ "s"
  else if hour > 0 then
    toString hour ++ "h " ++ pad02 minute ++ "m " ++ pad02 second ++ "s"
  else if minute > 0 then
    pad02 minute ++ "m " ++ pad02 second ++ "s"
  else
    pad02 second ++ "s"

/-- Embedding of `AlertmanagerServer._process_alert` (lines 146-207) with
the current instant `now` passed explicitly (the source reads
`datetime.now` inside `_get_duration`).  `Except.error` models a raised
exception (`KeyError` on a missing mandatory key), `Except.ok none` models
the `return False` taken for severity `NONE`, and `Except.ok (some d)`
models the returned `result` dict. -/
def process_alert (cfg : AMConfig) (now : Int) (alert : Alert) :
    Except String (Option AlertData) :=
  let generator_url := alert.generatorURL
  let fingerprint := alert.fingerprint
  let labels := alert.labels
  let stateExc : Except String String :=
    match alert.status with
    | none => Except.ok "active"
    | some st =>
      match st.lookup "state" with
      | some s => Except.ok s
      | none => Except.error "KeyError: state"
  match stateExc with
  | Except.error e => Except.error e
  | Except.ok _state =>
    let severity := pyUpper ((labels.lookup "severity").getD "UNKNOWN")
    if severity = "NONE" then
      Except.ok none
    else
      let hostname := detect_from_labels labels cfg.map_to_hostname "unknown"
      let hostname := stripPort hostname
      let servicename := detect_from_labels labels cfg.map_to_servicename "unknown"
      let attempt :=
        match alert.status with
        | some st => (st.lookup "state").getD "unknown"
        | none => "unknown"
      let scheduled_downtime := if attempt = "suppressed" then true else false
      let acknowledged := if attempt = "suppressed" then true else false
      match alert.startsAt with
      | none => Except.error "KeyError: startsAt"
      | some startsAt =>
        let duration := getDuration (now - startsAt)
        let status_information :=
          detect_from_labels alert.annotations cfg.map_to_status_information ""
        match alert.updatedAt with
        | none => Except.error "KeyError: updatedAt"
        | some updatedAt =>
          Except.ok (some
            { host := hostname
              name := servicename
              server := cfg.name
              status := severity
              labels := labels
              last_check := getDuration (now - updatedAt)
              attempt := attempt
              scheduled_downtime := scheduled_downtime
              acknowledged := acknowledged
              duration := duration
              generatorURL := generator_url
              fingerprint := fingerprint
              status_information := status_information })

/-- The `Result` value returned by `AlertmanagerServer._get_status`:
`ok` is the dummy success `Result()` of line 287, `err` is the error
`Result(result=..., error=...)` of line 284 carrying the description of the
caught exception. -/
inductive AMResult where
  | ok : AMResult
  | err (error : String) : AMResult
deriving DecidableEq

/-- A `GenericHost` as populated by `_get_status` lines 273-277: its name,
its server and its service dict (each service holds the fields copied from
the `_process_alert` result). -/
structure AMHost where
  name : String
  server : String
  services : List (String × AlertData)
deriving DecidableEq

/-- Lines 273-277 of `_get_status`: create the host on first sight, then
`new_hosts[host].services[name] = service`. -/
def insertService (hosts : List (String × AMHost)) (serverName : String)
    (d : AlertData) : List (String × AMHost) :=
  match hosts with
  | [] => [(d.host, { name := d.host, server := serverName, services := [(d.name, d)] })]
  | (hn, h) :: rest =>
    if hn = d.host then (hn, { h with services := setAssoc h.services d.name d }) :: rest
    else (hn, h) :: insertService rest serverName d

/-- The `for alert in data` loop of `_get_status` (lines 251-287) together
with its surrounding `try`: a processing exception ends the cycle with an
error `Result`, a falsy `_process_alert` answer executes `break` (ending
the loop but returning the success `Result()`), and a processed alert is
inserted into `new_hosts`. -/
def runAlerts (cfg : AMConfig) (now : Int) :
    List Alert → List (String × AMHost) → AMResult × List (String × AMHost)
  | [], hosts => (AMResult.ok, hosts)
  | a :: rest, hosts =>
    match process_alert cfg now a with
    | Except.error e => (AMResult.err e, hosts)
    | Except.ok none => (AMResult.ok, hosts)
    | Except.ok (some d) => runAlerts cfg now rest (insertService hosts cfg.name d)

/-- Embedding of `AlertmanagerServer._get_status` (lines 210-287) after a
successful fetch and JSON decode of the alert list `alerts`. -/
def amGetStatus (cfg : AMConfig) (now : Int) (alerts : List Alert) :
    AMResult × List (String × AMHost) :=
  runAlerts cfg now alerts []

/-! ### Alertmanager write actions (silences) -/

/-- One matcher dict of a silence document.  The downtime path posts dicts
with the four keys `name`, `value`, `isRegex`, `isEqual` while the
acknowledge path posts dicts without any `isEqual` key; the `Option Bool`
models presence or absence of that key. -/
structure Matcher where
  name : String
  value : String
  isRegex : Bool
  isEqual : Option Bool
deriving DecidableEq

/-- The silence document posted to `/api/v2/silences`. -/
structure AMSilence where
  matchers : List Matcher
  startsAt : String
  endsAt : String
  createdBy : String
  comment : String
deriving DecidableEq

/-- The `silence_data` dict of `AlertmanagerServer._set_downtime`
(lines 311-330); `start_time_dt` and `end_time_dt` are the already
UTC-converted timestamps. -/
def downtimeSilence (host service author comment : String)
    (start_time_dt end_time_dt : String) : AMSilence :=
  { matchers :=
      [ { name := "instance", value := host, isRegex := false, isEqual := some false },
        { name := "alertname", value := service, isRegex := false, isEqual := some false } ]
    startsAt := start_time_dt
    endsAt := end_time_dt
    createdBy := author
    comment := comment }

/-- The matcher list built by `AlertmanagerServer._set_acknowledge`
(lines 368-374): one exact matcher per label of the alert, with no
`isEqual` key. -/
def amAckMatchers (labels : Labels) : List Matcher :=
  labels.map (fun p =>
    { name := p.1, value := p.2, isRegex := false, isEqual := none })

/-- Embedding of `AlertmanagerServer._set_acknowledge` (lines 362-383),
returning the list of silence documents posted.  `labels` is
`self.hosts[host].services[service].labels`, `nowIso` the
`datetime.utcfromtimestamp(time.time()).isoformat()` string and `ends_at`
the UTC-converted expiry.  The function posts exactly one silence and
never looks at `all_services`.  When `ends_at` is falsy, line 376 reads
`cgi_data["startAt"]`, a key that was never written (the dict only holds
`startsAt`), so a `KeyError` is raised; that is the `Except.error`
branch. -/
def amSetAcknowledge (labels : Labels) (author comment : String)
    (nowIso ends_at : String) (all_services : List String) :
    Except String (List AMSilence) :=
  let _ := all_services
  if ends_at = "" then
    Except.error "KeyError: startAt"
  else
    Except.ok
      [ { matchers := amAckMatchers labels
          startsAt := nowIso
          endsAt := ends_at
          createdBy := if author = "" then "Nagstamon" else author
          comment := if comment = "" then "Nagstamon silence" else comment } ]

/-! ## Checkmk Multisite adapter (`Nagstamon/Servers/Multisite.py`) -/

/-- Modelled from the spec: the `Result` object (`Nagstamon/Objects.py` is
not part of the embedded sources).  Section 3 of the specification gives a
snapshot's `Result` value exactly a payload, an optional error description
and an optional HTTP-like status code, which matches the keyword
construction `Result(result=..., error=..., status_code=...)` used
throughout `Multisite.py`.  String payloads are `List Char` so that prefix
tests and line splitting can be reasoned about character by character. -/
structure MSResult where
  result : List Char
  error : List Char
  status_code : Nat
deriving DecidableEq

/-- Modelled from the spec: Python attribute lookup on a `Result`.  The
spec's `Result` carries exactly the attributes `result`, `error` and
`status_code`; reading any other attribute name raises `AttributeError`
(the numeric `status_code` is left out here, only string attributes are
needed). -/
def MSResult.attr (r : MSResult) (a : String) : Except String (List Char) :=
  if a = "result" then Except.ok r.result
  else if a = "error" then Except.ok r.error
  else Except.error ("AttributeError: " ++ a)

/-- Modelled from the spec (section 7): an exception reaching the bare
`except:` at the adapter boundary is converted into an error `Result`
carrying the exception description. -/
def pyExceptionResult (e : String) : MSResult :=
  { result := [], error := e.toList, status_code := 0 }

/-- The raw answer of one `FetchURL(url, 'raw')` transport call: body,
transport error and HTTP status code. -/
structure MSFetch where
  body : List Char
  error : List Char
  status_code : Nat
deriving DecidableEq

/-- What `MultisiteServer._get_url` produces: a raised
`MultisiteError(terminate, result)`, the empty-string return `''`, or the
`eval(content)` payload of line 188 (the literal text is carried raw here;
parsing the literal is outside the embedded fragment). -/
inductive URLOut where
  | raised (terminate : Bool) (r : MSResult)
  | empty
  | payload (content : List Char)
deriving DecidableEq

/-- The outcome of `_get_url` together with the observable side effects:
how many `_get_cookie_login` calls and how many `FetchURL` calls of the
same URL were made, and the final `CookieAuth` and
`refresh_authentication` flags. -/
structure URLState where
  out : URLOut
  logins : Nat
  fetches : Nat
  cookieAuth : Bool
  refreshAuth : Bool
deriving DecidableEq

/-- Lines 184-188 of `_get_url`: the final HTML check, then
`eval(content)`. -/
def finalCheck (content : List Char) (logins fetches : Nat)
    (cookieAuth : Bool) : URLState :=
  if pyStartsWith content "<" then
    ⟨URLOut.empty, logins, fetches, cookieAuth, true⟩
  else
    ⟨URLOut.payload content, logins, fetches, cookieAuth, false⟩

/-- Embedding of `MultisiteServer._get_url` (lines 142-188).
`cookieAuth` is `self.CookieAuth` at entry, `sessionExists` is
`self.session is not None`, and `authCookie` is the answer of
`self._is_auth_in_cookies()` before any login of this call.  `fetch1` is
the answer of the first `FetchURL(url, 'raw')`, `fetch2` the answer of the
re-fetch of the same URL after a cookie login (it is only consulted when
that re-fetch happens; its transport error is ignored by the source, which
only reassigns it without checking). -/
def getUrl (cookieAuth sessionExists authCookie : Bool)
    (fetch1 fetch2 : MSFetch) : URLState :=
  let content := fetch1.body
  if fetch1.error ≠ [] ∨ fetch1.status_code ≥ 400 then
    ⟨URLOut.raised true ⟨content, fetch1.error, fetch1.status_code⟩, 0, 1, cookieAuth, false⟩
  else if pyStartsWith content "WARNING:" then
    let c := splitOnChar '\n' content
    ⟨URLOut.raised false ⟨joinNL (tailLines c), headLine c, fetch1.status_code⟩,
      0, 1, cookieAuth, false⟩
  else if pyStartsWith content "ERROR:" then
    ⟨URLOut.raised true ⟨content, content, fetch1.status_code⟩, 0, 1, cookieAuth, false⟩
  else if cookieAuth ∧ sessionExists then
    if ¬ authCookie then ⟨URLOut.empty, 0, 1, cookieAuth, true⟩
    else finalCheck content 0 1 cookieAuth
  else if pyStartsWith content "<" then
    if ¬ authCookie then
      if pyStartsWith fetch2.body "<" then ⟨URLOut.empty, 1, 2, true, false⟩
      else finalCheck fetch2.body 1 2 true
    else finalCheck content 0 1 true
  else finalCheck content 0 1 cookieAuth

/-- What the host half of `MultisiteServer._get_status` does with the
`_get_url` outcome: return a `Result` early, or go on processing rows. -/
inductive MSPhase where
  | earlyReturn (r : MSResult)
  | continueRows (response : List Char)
deriving DecidableEq

/-- Lines 229-240 of `MultisiteServer._get_status`: the host fetch.  A
terminating `MultisiteError` returns its `Result`; a non-terminating one
leaves `response` as the initial `[]` (in Python `[] == ''` is false, so
the login check does not fire); the empty-string return of `_get_url`
yields `Result(result='', error='Login failed', status_code=401)`. -/
def msHostsPhase (cookieAuth sessionExists authCookie : Bool)
    (f1 f2 : MSFetch) : MSPhase :=
  match (getUrl cookieAuth sessionExists authCookie f1 f2).out with
  | URLOut.raised true r => MSPhase.earlyReturn r
  | URLOut.raised false _ => MSPhase.continueRows []
  | URLOut.empty =>
    MSPhase.earlyReturn { result := [], error := "Login failed".toList, status_code := 401 }
  | URLOut.payload c => MSPhase.continueRows c

/-- Lines 303-313 of `MultisiteServer._get_status`: the service fetch.
`Sum.inl r` is an early `return r`; `Sum.inr (response, ret)` means the
row loop runs on `response` and the cycle finally returns `ret`.  A
non-terminating `MultisiteError` executes
`response = copy.deepcopy(e.result.content)`: the attribute access is the
spec-modelled `MSResult.attr`, and its `AttributeError` is caught by the
outer bare `except:`, turning the cycle into an error `Result`. -/
def msServicesPhase (cookieAuth sessionExists authCookie : Bool)
    (f1 f2 : MSFetch) : MSResult ⊕ (List Char × MSResult) :=
  match (getUrl cookieAuth sessionExists authCookie f1 f2).out with
  | URLOut.raised true r => Sum.inl r
  | URLOut.raised false r =>
    match r.attr "content" with
    | Except.error e => Sum.inl (pyExceptionResult e)
    | Except.ok c => Sum.inr (c, r)
  | URLOut.empty => Sum.inr ([], { result := [], error := [], status_code := 0 })
  | URLOut.payload c => Sum.inr (c, { result := [], error := [], status_code := 0 })

/-- The hard/soft derivation of `_get_status` (lines 281-285 for hosts,
lines 372-376 for services):
`real_attempt, max_attempt = attempt.split('/')` followed by the string
comparison.  A split that does not produce exactly two pieces makes the
tuple unpacking raise `ValueError`; the two pieces are never interpreted
as numbers. -/
def msStatusType (attempt : List Char) : Except String String :=
  match splitOnChar '/' attempt with
  | [real_attempt, max_attempt] =>
    Except.ok (if real_attempt ≠ max_attempt then "soft" else "hard")
  | _ => Except.error "ValueError: unpack"

/-- The `p` dict of `MultisiteServer._set_acknowledge` (lines 488-494).
The sticky/notify/persistent inputs are the integers compared with
`== 1`; the comment falls back to `'author: comment'` unless the author is
the configured user and the comment is non-empty (Python's `and`/`or`
chain on truthiness). -/
structure MSAckParams where
  acknowledge : String
  ack_sticky : String
  ack_notify : String
  ack_persistent : String
  ack_comment : String
deriving DecidableEq

/-- Builds the `p` dict of `_set_acknowledge`. -/
def msAckParams (username author comment : String)
    (sticky notify persistent : Nat) : MSAckParams :=
  { acknowledge := "Acknowledge"
    ack_sticky := if sticky = 1 then "on" else ""
    ack_notify := if notify = 1 then "on" else ""
    ack_persistent := if persistent = 1 then "on" else ""
    ack_comment :=
      if author = username ∧ comment ≠ "" then comment
      else author ++ ": " ++ comment }

/-- One `self._action(site, host, service, p)` write call issued by the
acknowledge path, recorded as its target and its parameter dict (the
`site`/transid plumbing inside `_action` is not part of the embedded
fragment). -/
structure MSCall where
  host : String
  service : String
  params : MSAckParams
deriving DecidableEq

/-- Embedding of `MultisiteServer._set_acknowledge` (lines 487-499): one
`_action` call for the primary host/service pair, then one per entry of
`all_services`, all sharing the same dict `p`. -/
def msSetAcknowledge (username host service author comment : String)
    (sticky notify persistent : Nat) (all_services : List String) :
    List MSCall :=
  let p := msAckParams username author comment sticky notify persistent
  { host := host, service := service, params := p } ::
    all_services.map (fun s => { host := host, service := s, params := p })

/-! ## Spec-side definitions (for refinement comparisons) -/

/-- Follows the spec's words (section 4.3 step 5): format a non-negative
elapsed time of `n` seconds as the largest applicable unit combination
`Nd Hh MMm SSs` / `Hh MMm SSs` / `MMm SSs` / `SSs`, the minute and second
fields zero-padded to two digits (the `MM`/`SS` of the spec's template;
its `N` and `H` are unpadded). -/
def formatDurationSpec (n : Nat) : String :=
  let d := n / 86400
  let h := n % 86400 / 3600
  let m := n % 3600 / 60
  let s := n % 60
  if d > 0 then
    toString d ++ "d " ++ toString h ++ "h " ++ pad02 m ++ "m " ++ pad02 s ++ "s"
  else if h > 0 then
    toString h ++ "h " ++ pad02 m ++ "m " ++ pad02 s ++ "s"
  else if m > 0 then
    pad02 m ++ "m " ++ pad02 s ++ "s"
  else
    pad02 s ++ "s"

/-! ## Concrete fixtures used by witnesses and counterexamples -/

/-- A typical detection configuration: hostname from `instance` then
`host`, servicename from `alertname`. -/
def cfg0 : AMConfig :=
  { name := "am", map_to_hostname := "instance,host",
    map_to_servicename := "alertname", map_to_status_information := "summary" }

/-- A well-formed critical alert. -/
def alertCrit : Alert :=
  { generatorURL := some "http://g", fingerprint := some "f1",
    labels := [("severity", "critical"), ("instance", "db1:9100"), ("alertname", "HighLoad")],
    annotations := [("summary", "load high")],
    status := some [("state", "active")],
    startsAt := some 40, updatedAt := some 70 }

/-- An alert whose `severity` label is `"none"`. -/
def alertNone : Alert :=
  { generatorURL := none, fingerprint := some "f0",
    labels := [("severity", "none")],
    annotations := [], status := none, startsAt := none, updatedAt := none }

/-- A malformed alert: its mandatory `startsAt` key is missing, so
`_process_alert` raises `KeyError`. -/
def alertBad : Alert :=
  { generatorURL := none, fingerprint := some "f2",
    labels := [("severity", "critical"), ("instance", "db2")],
    annotations := [], status := none, startsAt := none, updatedAt := none }

/-- A transport answer whose body is an HTML login page. -/
def f1html : MSFetch :=
  { body := "<html><body>login</body></html>".toList, error := [], status_code := 200 }

/-- The HTML answer of the re-fetch after the re-login. -/
def f2html : MSFetch :=
  { body := "<html>still login</html>".toList, error := [], status_code := 200 }

/-- A tabular answer prefixed by a `WARNING:` line. -/
def fwarn : MSFetch :=
  { body := "WARNING: stale\n[['host'], ['h1']]".toList, error := [], status_code := 200 }

/-! ## Scrubbing the wall-clock-derived fields (for the idempotence claim) -/

/-- Blank the two fields of a processed alert that are derived from the
current instant (`duration` and `last_check`); every other field is kept. -/
def scrubData (d : AlertData) : AlertData :=
  { d with duration := "", last_check := "" }

/-- `scrubData` applied inside a host's service dict. -/
def scrubHost (h : AMHost) : AMHost :=
  { h with services := h.services.map (fun p => (p.1, scrubData p.2)) }

/-- `scrubHost` applied across the snapshot. -/
def scrubHosts (hs : List (String × AMHost)) : List (String × AMHost) :=
  hs.map (fun p => (p.1, scrubHost p.2))

/-- `scrubData` applied under the `_process_alert` outcome. -/
def scrubOutcome : Except String (Option AlertData) → Except String (Option AlertData)
  | Except.error e => Except.error e
  | Except.ok none => Except.ok none
  | Except.ok (some d) => Except.ok (some (scrubData d))

/-! ## Helper lemmas -/

/-- The first-present-key loop is the `find?` of a present key. -/
theorem detectGo_eq_find (labels : Labels) (d : String) (ks : List String) :
    detectGo labels d ks =
      match ks.find? (fun k => (labels.lookup k).isSome) with
      | some k => (labels.lookup k).getD d
      | none => d := by
  induction ks with
  | nil => rfl
  | cons k ks ih =>
    cases h : labels.lookup k with
    | some v => simp [detectGo, h, List.find?]
    | none => simp [detectGo, h, List.find?, ih]

/-- Splitting a string that does not contain the separator gives one piece. -/
theorem splitOnChar_not_mem {c : Char} {l : List Char} (h : c ∉ l) :
    splitOnChar c l = [l] := by
  induction l with
  | nil => rfl
  | cons x xs ih =>
    simp only [List.mem_cons, not_or] at h
    have hx : ¬ x = c := fun hx => h.1 (Eq.symm hx)
    simp [splitOnChar, hx, ih h.2]

/-- Splitting at the first separator occurrence peels off the prefix. -/
theorem splitOnChar_append {c : Char} {a : List Char} (b : List Char) (h : c ∉ a) :
    splitOnChar c (a ++ c :: b) = a :: splitOnChar c b := by
  induction a with
  | nil => simp [splitOnChar]
  | cons x xs ih =>
    simp only [List.mem_cons, not_or] at h
    have hx : ¬ x = c := fun hx => h.1 (Eq.symm hx)
    simp [splitOnChar, hx, ih h.2]

/-- `_process_alert` at two instants differs at most in the two
wall-clock-derived fields. -/
theorem process_alert_time (cfg : AMConfig) (t1 t2 : Int) (a : Alert) :
    scrubOutcome (process_alert cfg t1 a) = scrubOutcome (process_alert cfg t2 a) := by
  unfold process_alert
  cases hst : a.status with
  | none =>
    by_cases hsev : pyUpper ((a.labels.lookup "severity").getD "UNKNOWN") = "NONE"
    · simp [hsev, scrubOutcome]
    · cases hsa : a.startsAt with
      | none => simp [hsev, hsa, scrubOutcome]
      | some s =>
        cases hsu : a.updatedAt with
        | none => simp [hsev, hsa, hsu, scrubOutcome]
        | some u => simp [hsev, hsa, hsu, scrubOutcome, scrubData]
  | some st =>
    cases hlk : st.lookup "state" with
    | none => simp [hlk, scrubOutcome]
    | some sv =>
      by_cases hsev : pyUpper ((a.labels.lookup "severity").getD "UNKNOWN") = "NONE"
      · simp [hlk, hsev, scrubOutcome]
      · cases hsa : a.startsAt with
        | none => simp [hlk, hsev, hsa, scrubOutcome]
        | some s =>
          cases hsu : a.updatedAt with
          | none => simp [hlk, hsev, hsa, hsu, scrubOutcome]
          | some u => simp [hlk, hsev, hsa, hsu, scrubOutcome, scrubData]

/-- Dict update respects scrubbing: scrub-equal dicts updated with
scrub-equal services stay scrub-equal. -/
theorem setAssoc_scrub :
    ∀ (s1 s2 : List (String × AlertData)) (k : String) (d1 d2 : AlertData),
      s1.map (fun p => (p.1, scrubData p.2)) = s2.map (fun p => (p.1, scrubData p.2)) →
      scrubData d1 = scrubData d2 →
      (setAssoc s1 k d1).map (fun p => (p.1, scrubData p.2)) =
        (setAssoc s2 k d2).map (fun p => (p.1, scrubData p.2))
  | [], [], k, d1, d2, _, hd => by simp [setAssoc, hd]
  | [], (q :: r2), k, d1, d2, hs, _ => by simp at hs
  | (p :: r1), [], k, d1, d2, hs, _ => by simp at hs
  | ((k1, v1) :: r1), ((k2, v2) :: r2), k, d1, d2, hs, hd => by
    simp only [List.map_cons, List.cons.injEq, Prod.mk.injEq] at hs
    obtain ⟨⟨hk, hv⟩, hr⟩ := hs
    subst hk
    by_cases hke : k1 = k
    · simp [setAssoc, hke, hd, hv, hr]
    · simp [setAssoc, hke, hv, setAssoc_scrub r1 r2 k d1 d2 hr hd]

/-- `scrubData` keeps the routing fields (`host`, `name`). -/
theorem scrubData_host {d1 d2 : AlertData} (h : scrubData d1 = scrubData d2) :
    d1.host = d2.host ∧ d1.name = d2.name := by
  constructor
  · have h2 := congrArg AlertData.host h
    simpa [scrubData] using h2
  · have h2 := congrArg AlertData.name h
    simpa [scrubData] using h2

/-- `scrubHost` keeps the host identity fields. -/
theorem scrubHost_fields {h1 h2 : AMHost} (h : scrubHost h1 = scrubHost h2) :
    h1.name = h2.name ∧ h1.server = h2.server ∧
      h1.services.map (fun p => (p.1, scrubData p.2)) =
        h2.services.map (fun p => (p.1, scrubData p.2)) := by
  refine ⟨?_, ?_, ?_⟩
  · have h2 := congrArg AMHost.name h
    simpa [scrubHost] using h2
  · have h2 := congrArg AMHost.server h
    simpa [scrubHost] using h2
  · have h2 := congrArg AMHost.services h
    simpa [scrubHost] using h2

/-- Snapshot insertion respects scrubbing. -/
theorem insertService_scrub :
    ∀ (h1 h2 : List (String × AMHost)) (sn : String) (d1 d2 : AlertData),
      scrubHosts h1 = scrubHosts h2 → scrubData d1 = scrubData d2 →
      scrubHosts (insertService h1 sn d1) = scrubHosts (insertService h2 sn d2)
  | [], [], sn, d1, d2, _, hd => by
    obtain ⟨hh, hn⟩ := scrubData_host hd
    simp [insertService, scrubHosts, scrubHost, hh, hn, hd]
  | [], (q :: r2), sn, d1, d2, hs, _ => by simp [scrubHosts] at hs
  | (p :: r1), [], sn, d1, d2, hs, _ => by simp [scrubHosts] at hs
  | ((n1, h1) :: r1), ((n2, h2) :: r2), sn, d1, d2, hs, hd => by
    obtain ⟨hh, hn⟩ := scrubData_host hd
    simp only [scrubHosts, List.map_cons, List.cons.injEq, Prod.mk.injEq] at hs
    obtain ⟨⟨hk, hv⟩, hr⟩ := hs
    subst hk
    obtain ⟨hhn, hhs, hsv⟩ := scrubHost_fields hv
    by_cases hne : n1 = d1.host
    · have hne2 : n1 = d2.host := hh ▸ hne
      simp only [insertService, if_pos hne, if_pos hne2, scrubHosts, List.map_cons]
      simp only [scrubHost, hhn, hhs, hn, List.cons.injEq, Prod.mk.injEq,
        AMHost.mk.injEq, true_and]
      refine ⟨?_, ?_⟩
      · exact hn ▸ setAssoc_scrub h1.services h2.services d1.name d1 d2 hsv hd
      · simpa [scrubHost] using hr
    · have hne2 : ¬ n1 = d2.host := fun hx => hne (hh ▸ hx)
      simp only [insertService, if_neg hne, if_neg hne2, scrubHosts, List.map_cons]
      have hrec := insertService_scrub r1 r2 sn d1 d2 hr hd
      simp only [scrubHosts] at hrec
      simp only [scrubHost, List.cons.injEq, Prod.mk.injEq, AMHost.mk.injEq, true_and]
      refine ⟨⟨hhn, hhs, hsv⟩, ?_⟩
      simpa [scrubHost] using hrec

/-- The alert loop at two instants: equal `Result`s, scrub-equal
snapshots. -/
theorem runAlerts_scrub (cfg : AMConfig) (t1 t2 : Int) :
    ∀ (alerts : List Alert) (acc1 acc2 : List (String × AMHost)),
      scrubHosts acc1 = scrubHosts acc2 →
      (runAlerts cfg t1 alerts acc1).1 = (runAlerts cfg t2 alerts acc2).1 ∧
      scrubHosts (runAlerts cfg t1 alerts acc1).2 =
        scrubHosts (runAlerts cfg t2 alerts acc2).2 := by
  intro alerts
  induction alerts with
  | nil => intro acc1 acc2 h; simpa [runAlerts] using h
  | cons a rest ih =>
    intro acc1 acc2 h
    have hp := process_alert_time cfg t1 t2 a
    cases h1 : process_alert cfg t1 a with
    | error e =>
      cases h2 : process_alert cfg t2 a with
      | error e2 =>
        rw [h1, h2] at hp
        simp only [scrubOutcome, Except.error.injEq] at hp
        simp [runAlerts, h1, h2, hp, h]
      | ok o2 =>
        rw [h1, h2] at hp
        cases o2 <;> simp [scrubOutcome] at hp
    | ok o1 =>
      cases o1 with
      | none =>
        cases h2 : process_alert cfg t2 a with
        | error e2 => rw [h1, h2] at hp; simp [scrubOutcome] at hp
        | ok o2 =>
          cases o2 with
          | none => simp [runAlerts, h1, h2, h]
          | some d2 => rw [h1, h2] at hp; simp [scrubOutcome] at hp
      | some d1 =>
        cases h2 : process_alert cfg t2 a with
        | error e2 => rw [h1, h2] at hp; simp [scrubOutcome] at hp
        | ok o2 =>
          cases o2 with
          | none => rw [h1, h2] at hp; simp [scrubOutcome] at hp
          | some d2 =>
            rw [h1, h2] at hp
            simp only [scrubOutcome, Except.ok.injEq, Option.some.injEq] at hp
            simp only [runAlerts, h1, h2]
            exact ih (insertService acc1 cfg.name d1) (insertService acc2 cfg.name d2)
              (insertService_scrub acc1 acc2 cfg.name d1 d2 h hp)

/-- A processing error inside the alert loop ends the cycle with an error
`Result`; the records after the failing one are never reached. -/
theorem runAlerts_error (cfg : AMConfig) (now : Int) :
    ∀ (pre : List Alert) (a : Alert) (rest : List Alert) (e : String)
      (acc : List (String × AMHost)),
      (∀ b ∈ pre, ∃ d, process_alert cfg now b = Except.ok (some d)) →
      process_alert cfg now a = Except.error e →
      runAlerts cfg now (pre ++ a :: rest) acc =
        (AMResult.err e, (runAlerts cfg now pre acc).2) := by
  intro pre
  induction pre with
  | nil =>
    intro a rest e acc _ ha
    simp [runAlerts, ha]
  | cons b pre ih =>
    intro a rest e acc hpre ha
    obtain ⟨d, hd⟩ := hpre b (by simp)
    simp only [List.cons_append, runAlerts, hd]
    exact ih a rest e _ (fun x hx => hpre x (by simp [hx])) ha

/-! ## Claims -/

/-- C1: the spec claims that an alert whose severity label is `none`
(case-insensitively, default `UNKNOWN` when absent) is dropped as a
per-alert filter while every other alert of the list, including those
after it, is still normalized into the snapshot.  The code instead
executes `break` on the falsy `_process_alert` answer
(`Alertmanager/__init__.py` line 254), so an alert list consisting of a
none-severity alert followed by a critical alert yields an empty snapshot,
while the reversed list retains the critical alert: the alerts after the
filtered one are silently dropped, contradicting the claim (and the
source's own `skip alerts with none severity` comment, making it a code
bug rather than a spec error). -/
theorem c1_break_drops_later_alerts :
    amGetStatus cfg0 100 [alertNone, alertCrit] = (AMResult.ok, []) ∧
    (amGetStatus cfg0 100 [alertCrit, alertNone]).2 ≠ [] := by
  constructor
  · decide
  · decide

/-- C2 (counterexample): a malformed first record (no `startsAt` key) makes
the whole cycle return an error `Result` and the well-formed second record
is not normalized — the claim's per-record skip does not happen. -/
theorem c2_malformed_record_aborts_cycle :
    (amGetStatus cfg0 100 [alertBad, alertCrit]).1 = AMResult.err "KeyError: startsAt" ∧
    (amGetStatus cfg0 100 [alertBad, alertCrit]).2 = [] := by
  constructor
  · decide
  · decide

/-- C2 (amended): an error while normalizing one record is caught at the
cycle boundary (where it is logged) but aborts the cycle: the cycle
returns an error `Result` instead of a usable snapshot, and the records
after the failing one are never normalized — the snapshot state is
exactly the one built from the records before the failure. -/
theorem c2_record_error_is_fatal (cfg : AMConfig) (now : Int)
    (pre : List Alert) (a : Alert) (rest : List Alert) (e : String)
    (hpre : ∀ b ∈ pre, ∃ d, process_alert cfg now b = Except.ok (some d))
    (ha : process_alert cfg now a = Except.error e) :
    (amGetStatus cfg now (pre ++ a :: rest)).1 = AMResult.err e ∧
    (amGetStatus cfg now (pre ++ a :: rest)).2 = (amGetStatus cfg now pre).2 := by
  unfold amGetStatus
  rw [runAlerts_error cfg now pre a rest e [] hpre ha]
  exact ⟨rfl, rfl⟩

/-- C2 (witness): the fatal-cycle theorem applied to a concrete good
record followed by a malformed one. -/
theorem c2_record_error_is_fatal_witness :
    (amGetStatus cfg0 100 ([alertCrit] ++ alertBad :: [alertCrit])).1 =
      AMResult.err "KeyError: startsAt" ∧
    (amGetStatus cfg0 100 ([alertCrit] ++ alertBad :: [alertCrit])).2 =
      (amGetStatus cfg0 100 [alertCrit]).2 :=
  c2_record_error_is_fatal cfg0 100 [alertCrit] alertBad [alertCrit] "KeyError: startsAt"
    (by
      intro b hb
      simp only [List.mem_singleton] at hb
      subst hb
      exact ⟨_, rfl⟩)
    (by decide)

/-- C3 (counterexample): with priority list `instance,host` and labels
`{instance: "", host: "db1"}` the code resolves the host to `""`, not to
the first non-empty value `"db1"` the claim demands — the loop stops at
the first *present* key even when its value is empty. -/
theorem c3_first_present_key_wins :
    resolveHost [("instance", ""), ("host", "db1")] "instance,host" ≠ "db1" ∧
    resolveHost [("instance", ""), ("host", "db1")] "instance,host" = "" := by
  constructor
  · decide
  · decide

/-- C3 (amended): the resolved host name is the value of the first key of
the comma-separated priority list that is present in the labels map (even
when that value is empty), `unknown` when no listed key is present; every
`:<digits>` substring is removed from the resolved value (the regex
`:[0-9]+` is unanchored, so not only a trailing port is stripped, as
`stripPort "my:80host" = "myhost"` shows).  The claim's concrete example
still holds: priority `instance,host` over
`{host: db1, instance: db1:9100}` resolves to `db1`. -/
theorem c3_host_resolution (labels : Labels) (cfg d : String) :
    detect_from_labels labels cfg d =
      (match (pySplit cfg ',').find? (fun k => (labels.lookup k).isSome) with
       | some k => (labels.lookup k).getD d
       | none => d) ∧
    resolveHost [("host", "db1"), ("instance", "db1:9100")] "instance,host" = "db1" ∧
    stripPort "my:80host" = "myhost" := by
  refine ⟨?_, by decide, by decide⟩
  unfold detect_from_labels
  exact detectGo_eq_find labels d (pySplit cfg ',')

/-- C4: the spec claims a `WARNING:`-prefixed tabular body yields a
successful cycle that processes the remaining lines as the real payload.
`_get_url` does raise the non-fatal `Result` carrying the payload after
the first line and the warning line as its error (first conjunct), but
`_get_status` line 311 then reads `e.result.content` — an attribute the
spec's `Result` does not have — so the services cycle converts the
`AttributeError` into an error `Result` and the payload is never
processed (second conjunct): the code contradicts the specified intent,
a slip for `e.result.result`. -/
theorem c4_warning_payload_lost :
    (getUrl false true false fwarn fwarn).out =
      URLOut.raised false
        { result := "[['host'], ['h1']]".toList,
          error := "WARNING: stale".toList,
          status_code := 200 } ∧
    msServicesPhase false true false fwarn fwarn =
      Sum.inl (pyExceptionResult "AttributeError: content") := by
  constructor
  · decide
  · decide

/-- C5 (counterexample): normalization is not a function of the raw
payload alone — the same alert list normalized at two different instants
yields snapshots differing in the wall-clock-derived duration fields. -/
theorem c5_two_runs_differ :
    amGetStatus cfg0 45 [alertCrit] ≠ amGetStatus cfg0 125 [alertCrit] := by
  decide

/-- C5 (amended): normalization is a deterministic function of the raw
payload and the current instant.  Two runs over a byte-identical payload
yield the same `Result` and snapshots that agree field for field on
everything except the two wall-clock-derived fields (`duration`,
`last_check`); at equal instants the snapshots are fully identical. -/
theorem c5_deterministic_up_to_clock (cfg : AMConfig) (alerts : List Alert)
    (t1 t2 : Int) :
    (amGetStatus cfg t1 alerts).1 = (amGetStatus cfg t2 alerts).1 ∧
    scrubHosts (amGetStatus cfg t1 alerts).2 =
      scrubHosts (amGetStatus cfg t2 alerts).2 :=
  runAlerts_scrub cfg t1 t2 alerts [] [] rfl

/-- C6 (counterexample): the alert-list adapter's acknowledge posts a
single silence even when two extra targets are passed — it never issues
one write per extra target, contradicting the claim's `both backend
adapters`. -/
theorem c6_alertmanager_ignores_extra_targets :
    (amSetAcknowledge [("alertname", "a1")] "au" "co" "n" "e" ["s1", "s2"]).map
      List.length = Except.ok 1 ∧
    (1 : Nat) ≠ 1 + 2 := by
  constructor
  · decide
  · decide

/-- C6 (amended): only the tabular adapter performs the bulk acknowledge:
it issues one write call for the primary host/service pair plus one per
extra service, all carrying the identical parameter dict (comment, author
representation and sticky/notify/persistent flags).  The alert-list
adapter posts exactly one silence built from the alert's label set and its
output is independent of the extra-targets list (with its latent
`startAt` `KeyError` when the expiry is falsy). -/
theorem c6_bulk_acknowledge (username host service author comment : String)
    (sticky notify persistent : Nat) (all_services : List String)
    (labels : Labels) (nowIso ends_at : String) (others : List String) :
    (msSetAcknowledge username host service author comment
        sticky notify persistent all_services).length = 1 + all_services.length ∧
    (msSetAcknowledge username host service author comment
        sticky notify persistent all_services).all
      (fun c => decide
        (c.params = msAckParams username author comment sticky notify persistent)) = true ∧
    (amSetAcknowledge labels author comment nowIso ends_at all_services).map
        List.length =
      (if ends_at = "" then Except.error "KeyError: startAt" else Except.ok 1) ∧
    amSetAcknowledge labels author comment nowIso ends_at all_services =
      amSetAcknowledge labels author comment nowIso ends_at others := by
  refine ⟨?_, ?_, ?_, ?_⟩
  · simp [msSetAcknowledge, Nat.add_comm]
  · simp [msSetAcknowledge, List.all_map, Function.comp]
  · by_cases h : ends_at = "" <;> simp [amSetAcknowledge, h, Except.map]
  · by_cases h : ends_at = "" <;> simp [amSetAcknowledge, h]

/-- C7 (counterexample): the attempt `1/01` has numerically equal halves
but is classified `soft`, and the non-numeric attempt `a/a` is classified
`hard` with no parse error — the halves are compared as strings and never
validated as integers, contradicting both parts of the claim. -/
theorem c7_string_comparison :
    msStatusType ("1/01".toList) = Except.ok "soft" ∧
    msStatusType ("a/a".toList) = Except.ok "hard" := by
  constructor
  · decide
  · decide

/-- C7 (amended): for an attempt string with exactly one `/`, status_type
is `hard` iff the two halves are equal *as strings* and `soft` otherwise
(numeric content is never checked); an attempt string without a `/` makes
the tuple unpacking raise `ValueError`, which the surrounding bare
`except:` of the cycle converts into an error `Result` rather than an
unhandled crash. -/
theorem c7_hard_soft (a b s : List Char)
    (ha : '/' ∉ a) (hb : '/' ∉ b) (hs : '/' ∉ s) :
    msStatusType (a ++ '/' :: b) = Except.ok (if a = b then "hard" else "soft") ∧
    msStatusType s = Except.error "ValueError: unpack" := by
  constructor
  · unfold msStatusType
    rw [splitOnChar_append b ha, splitOnChar_not_mem hb]
    by_cases h : a = b <;> simp [h]
  · unfold msStatusType
    rw [splitOnChar_not_mem hs]

/-- C7 (witness): the amended hard/soft theorem at `1/01` and `4`. -/
theorem c7_hard_soft_witness :
    msStatusType (['1'] ++ '/' :: ['0', '1']) =
      Except.ok (if ['1'] = ['0', '1'] then "hard" else "soft") ∧
    msStatusType ['4'] = Except.error "ValueError: unpack" :=
  c7_hard_soft ['1'] ['0', '1'] ['4'] (by decide) (by decide) (by decide)

/-- C8: for every non-negative elapsed duration the formatting function
returns the largest applicable unit combination `Nd Hh MMm SSs` /
`Hh MMm SSs` / `MMm SSs` / `SSs` with the minute and second fields
zero-padded to two digits (the spec's own template and examples leave the
hour unpadded), and in particular 45s, 125s, 3725s and 90125s format as
claimed. -/
theorem c8_duration_format :
    (∀ n : Nat, getDuration (Int.ofNat n) = formatDurationSpec n) ∧
    getDuration 45 = "45s" ∧
    getDuration 125 = "02m 05s" ∧
    getDuration 3725 = "1h 02m 05s" ∧
    getDuration 90125 = "1d 1h 02m 05s" := by
  refine ⟨?_, by decide, by decide, by decide, by decide⟩
  intro n
  unfold getDuration formatDurationSpec
  have h1 : Int.fdiv (Int.ofNat n) 86400 = Int.ofNat (n / 86400) :=
    (Int.ofNat_fdiv n 86400).symm
  have h2 : Int.emod (Int.ofNat n) 86400 = Int.ofNat (n % 86400) :=
    (Int.ofNat_emod n 86400).symm
  have h3 : (Int.ofNat (n / 86400) > 0) ↔ (n / 86400 > 0) := Int.ofNat_pos
  have h4 : toString (Int.ofNat (n / 86400)) = toString (n / 86400) := rfl
  have h5 : n % 86400 % 3600 = n % 3600 := Nat.mod_mod_of_dvd n (by norm_num)
  have h6 : n % 86400 % 60 = n % 60 := Nat.mod_mod_of_dvd n (by norm_num)
  have h7 : (Int.ofNat (n % 86400)).toNat = n % 86400 := rfl
  simp only [h1, h2, h7, h3, h4, h5, h6]

/-- C9: an HTML (login page) body on the tabular adapter's fetch with a
fresh session triggers exactly one re-login and one re-fetch of the same
URL; when the re-fetched body is still HTML, `_get_url` returns the empty
answer and the cycle surfaces the auth failure as
`Result(result='', error='Login failed', status_code=401)`; and no
execution of `_get_url`, whatever its flags and fetch answers, ever
performs more than one re-login. -/
theorem c9_single_relogin (cookieAuth sessionExists authCookie : Bool)
    (f1 f2 : MSFetch)
    (hca : cookieAuth = false) (hac : authCookie = false)
    (he : f1.error = []) (hsc : f1.status_code < 400)
    (hw : pyStartsWith f1.body "WARNING:" = false)
    (herr : pyStartsWith f1.body "ERROR:" = false)
    (h1 : pyStartsWith f1.body "<" = true)
    (h2 : pyStartsWith f2.body "<" = true) :
    getUrl cookieAuth sessionExists authCookie f1 f2 =
      ⟨URLOut.empty, 1, 2, true, false⟩ ∧
    msHostsPhase cookieAuth sessionExists authCookie f1 f2 =
      MSPhase.earlyReturn
        { result := [], error := "Login failed".toList, status_code := 401 } ∧
    (∀ (ca se ac : Bool) (g1 g2 : MSFetch), (getUrl ca se ac g1 g2).logins ≤ 1) := by
  subst hca hac
  have hcond : ¬ (f1.error ≠ [] ∨ f1.status_code ≥ 400) := by
    simp [he]
    omega
  have hget : getUrl false sessionExists false f1 f2 =
      ⟨URLOut.empty, 1, 2, true, false⟩ := by
    unfold getUrl
    simp [hcond, hw, herr, h1, h2]
  refine ⟨hget, ?_, ?_⟩
  · unfold msHostsPhase
    rw [hget]
  · intro ca se ac g1 g2
    unfold getUrl finalCheck
    repeat' split
    all_goals simp [apply_ite URLState.logins]
    all_goals repeat' split
    all_goals simp

/-- C9 (witness): the single-re-login theorem at a concrete HTML login
page answered by HTML again. -/
theorem c9_single_relogin_witness :
    getUrl false true false f1html f2html = ⟨URLOut.empty, 1, 2, true, false⟩ ∧
    msHostsPhase false true false f1html f2html =
      MSPhase.earlyReturn
        { result := [], error := "Login failed".toList, status_code := 401 } ∧
    (∀ (ca se ac : Bool) (g1 g2 : MSFetch), (getUrl ca se ac g1 g2).logins ≤ 1) :=
  c9_single_relogin false true false f1html f2html rfl rfl (by decide) (by decide)
    (by decide) (by decide) (by decide) (by decide)

/-- C10: the silence posted by the downtime path carries exactly two
matchers — `instance`/host and `alertname`/service — each with
`isRegex: false` and `isEqual: false`, while every matcher built by the
acknowledge path carries no `isEqual` key at all. -/
theorem c10_downtime_matchers (host service author comment st en : String)
    (labels : Labels) :
    (downtimeSilence host service author comment st en).matchers =
      [ { name := "instance", value := host, isRegex := false, isEqual := some false },
        { name := "alertname", value := service, isRegex := false, isEqual := some false } ] ∧
    (downtimeSilence host service author comment st en).matchers.length = 2 ∧
    (amAckMatchers labels).all (fun m => m.isEqual.isNone) = true := by
  refine ⟨rfl, rfl, ?_⟩
  simp only [amAckMatchers, List.all_eq_true]
  intro m hm
  simp only [List.mem_map] at hm
  obtain ⟨p, hp, rfl⟩ := hm
  rfl

end Nagstamon
